import Mathlib

/-!
Shallow embedding of the tweedegolf/pcf85063a RTC driver (src/lib.rs,
src/datetime.rs, src/alarm.rs) and proofs about its register-level
behaviour.

The I2C transport is modelled as a register file of the chip together
with optional injected transport faults and a log of the write
transactions issued.  Each driver operation becomes a Lean function
from a simulator state to a result (an `Except` mirroring Rust's
`Result<_, Error<E>>`) paired with the successor state.  Machine bytes
are `Nat`s; `% 256` appears exactly where the Rust `u8` arithmetic can
wrap.
-/

namespace PCF85063A

/-- Rust `enum Error<E>` from src/lib.rs. -/
inductive Error (E : Type) where
  | I2C : E → Error E
  | InvalidInputData : Error E
  | ComponentRange : Error E
deriving DecidableEq, Repr

-- Register addresses (struct `Register` in src/lib.rs).
namespace Register

def CONTROL_1 : Nat := 0x00
def CONTROL_2 : Nat := 0x01
def OFFSET : Nat := 0x02
def RAM_BYTE : Nat := 0x03
def SECONDS : Nat := 0x04
def MINUTES : Nat := 0x05
def HOURS : Nat := 0x06
def DAYS : Nat := 0x07
def WEEKDAYS : Nat := 0x08
def MONTHS : Nat := 0x09
def YEARS : Nat := 0x0A
def SECOND_ALARM : Nat := 0x0B
def MINUTE_ALARM : Nat := 0x0C
def HOUR_ALARM : Nat := 0x0D
def DAY_ALARM : Nat := 0x0E
def WEEKDAY_ALARM : Nat := 0x0F
def TIMER_VALUE : Nat := 0x10
def TIMER_MODE : Nat := 0x11

end Register

-- Bit masks (struct `BitFlags` in src/lib.rs).
namespace BitFlags

def CAP_SEL : Nat := 0b00000001
def MODE_12_24 : Nat := 0b00000010
def CIE : Nat := 0b00000100
def SR : Nat := 0b00010000
def STOP : Nat := 0b00100000
def EXT_TEST : Nat := 0b10000000
def COF : Nat := 0b00000111
def TF : Nat := 0b00001000
def HMI : Nat := 0b00010000
def MI : Nat := 0b00100000
def AF : Nat := 0b01000000
def AIE : Nat := 0b10000000
def AE : Nat := 0b10000000

end BitFlags

def DEVICE_ADDRESS : Nat := 0b1010001

/-- Rust `enum Control` (On/Off toggle). -/
inductive Control where
  | On : Control
  | Off : Control
deriving DecidableEq, Repr

/-- Simulator state: the chip's register file, injected transport
faults (`failRead` makes every write-read transaction fail with the
given transport error, `failWrite` every write transaction), and the
chronological log of the payloads of all write transactions issued so
far.  The payload format matches the bytes the driver passes to
`i2c.write`: register address first, data bytes after it. -/
structure Sim (E : Type) where
  regs : Nat → Nat
  failRead : Option E
  failWrite : Option E
  writes : List (List Nat)

/-- Point update of the register file. -/
def updateReg (regs : Nat → Nat) (a d : Nat) : Nat → Nat :=
  fun x => if x = a then d else regs x

/-- Store a burst of data bytes at consecutive addresses (the chip
auto-increments the register address during a multi-byte write). -/
def storeFrom (regs : Nat → Nat) (a : Nat) : List Nat → (Nat → Nat)
  | [] => regs
  | d :: rest => storeFrom (updateReg regs a d) (a + 1) rest

/-- Effect of one I2C write transaction on the register file: the
first payload byte selects the register, the rest are stored at
consecutive addresses. -/
def storeBurst (regs : Nat → Nat) : List Nat → (Nat → Nat)
  | [] => regs
  | a :: data => storeFrom regs a data

/-- Model of `i2c.write(DEVICE_ADDRESS, payload)`. -/
def i2cWrite {E : Type} (s : Sim E) (payload : List Nat) :
    Except (Error E) Unit × Sim E :=
  match s.failWrite with
  | some e => (.error (.I2C e), s)
  | none =>
      (.ok (), { s with
        regs := storeBurst s.regs payload
        writes := s.writes ++ [payload] })

/-- Model of `i2c.write_read(DEVICE_ADDRESS, [addr], buf)` with a
`len`-byte read buffer: a burst read starting at `addr`. -/
def i2cWriteRead {E : Type} (s : Sim E) (addr len : Nat) :
    Except (Error E) (List Nat) × Sim E :=
  match s.failRead with
  | some e => (.error (.I2C e), s)
  | none => (.ok ((List.range len).map fun i => s.regs (addr + i)), s)

/-- Model of `PCF85063::write_register` (src/lib.rs). -/
def write_register {E : Type} (s : Sim E) (register data : Nat) :
    Except (Error E) Unit × Sim E :=
  i2cWrite s [register, data]

/-- Model of `PCF85063::read_register` (src/lib.rs). -/
def read_register {E : Type} (s : Sim E) (register : Nat) :
    Except (Error E) Nat × Sim E :=
  match i2cWriteRead s register 1 with
  | (.error e, s') => (.error e, s')
  | (.ok data, s') => (.ok (data.getD 0 0), s')

/-- Model of `PCF85063::is_register_bit_flag_high` (src/lib.rs). -/
def is_register_bit_flag_high {E : Type} (s : Sim E) (address bitmask : Nat) :
    Except (Error E) Bool × Sim E :=
  match read_register s address with
  | (.error e, s') => (.error e, s')
  | (.ok data, s') => (.ok (data &&& bitmask != 0), s')

/-- Model of `PCF85063::set_register_bit_flag` (src/lib.rs): read, and write
back with the mask OR'd in only when `data & bitmask == 0`. -/
def set_register_bit_flag {E : Type} (s : Sim E) (address bitmask : Nat) :
    Except (Error E) Unit × Sim E :=
  match read_register s address with
  | (.error e, s') => (.error e, s')
  | (.ok data, s') =>
      if data &&& bitmask == 0 then
        write_register s' address (data ||| bitmask)
      else
        (.ok (), s')

/-- Model of `PCF85063::clear_register_bit_flag` (src/lib.rs): read, and write
back with the mask AND-NOT'd out only when `data & bitmask != 0`
(`!bitmask` on `u8` is modelled as XOR with 255). -/
def clear_register_bit_flag {E : Type} (s : Sim E) (address bitmask : Nat) :
    Except (Error E) Unit × Sim E :=
  match read_register s address with
  | (.error e, s') => (.error e, s')
  | (.ok data, s') =>
      if data &&& bitmask != 0 then
        write_register s' address (data &&& (255 ^^^ bitmask))
      else
        (.ok (), s')

/-- Rust `decode_bcd` (src/lib.rs): low nibble is units, bits 4-6 are tens;
bit 7 never contributes.  No `u8` overflow is possible (max 85). -/
def decode_bcd (input : Nat) : Nat :=
  10 * ((input >>> 4) &&& 0x7) + (input &&& 0xf)

/-- Rust `encode_bcd` (src/lib.rs): `(input/10) << 4 + input % 10` on `u8`,
wrapping (`% 256`) where the shift and the add can overflow. -/
def encode_bcd (input : Nat) : Nat :=
  ((((input / 10) <<< 4) % 256) + input % 10) % 256

/-- Rust struct `DateTime` (src/datetime.rs). -/
structure DateTime where
  year : Nat
  month : Nat
  weekday : Nat
  day : Nat
  hours : Nat
  minutes : Nat
  seconds : Nat
deriving DecidableEq, Repr

/-- Rust `DateTime::is_valid` (src/datetime.rs), translated verbatim: a
chain of `||` between the nine comparisons, the sixth of which tests
`month <= 31` (not `day`). -/
def DateTime.is_valid (dt : DateTime) : Bool :=
  decide (dt.year ≤ 99)
    || decide (dt.month ≥ 1)
    || decide (dt.month ≤ 12)
    || decide (dt.weekday ≤ 6)
    || decide (dt.day ≥ 1)
    || decide (dt.month ≤ 31)
    || decide (dt.hours ≤ 23)
    || decide (dt.minutes ≤ 59)
    || decide (dt.seconds ≤ 59)

/-- Model of `PCF85063::get_datetime` (src/datetime.rs): 7-byte burst read from
the seconds register, each byte masked before BCD decoding. -/
def get_datetime {E : Type} (s : Sim E) :
    Except (Error E) DateTime × Sim E :=
  match i2cWriteRead s Register.SECONDS 7 with
  | (.error e, s') => (.error e, s')
  | (.ok data, s') =>
      (.ok {
        year := decode_bcd (data.getD 6 0)
        month := decode_bcd (data.getD 5 0 &&& 0x1f)
        weekday := decode_bcd (data.getD 4 0 &&& 0x07)
        day := decode_bcd (data.getD 3 0 &&& 0x3f)
        hours := decode_bcd (data.getD 2 0 &&& 0x3f)
        minutes := decode_bcd (data.getD 1 0 &&& 0b01111111)
        seconds := decode_bcd (data.getD 0 0 &&& 0b01111111) }, s')

/-- Model of `PCF85063::set_datetime` (src/datetime.rs): validate via
`is_valid`, then issue one 8-byte burst write (register address
first). -/
def set_datetime {E : Type} (s : Sim E) (datetime : DateTime) :
    Except (Error E) Unit × Sim E :=
  if !datetime.is_valid then
    (.error .InvalidInputData, s)
  else
    i2cWrite s [
      Register.SECONDS,
      encode_bcd datetime.seconds,
      encode_bcd datetime.minutes,
      encode_bcd datetime.hours,
      encode_bcd datetime.day,
      encode_bcd datetime.weekday,
      encode_bcd datetime.month,
      encode_bcd datetime.year]

/-- Model of `PCF85063::set_alarm_seconds` (src/alarm.rs): validate,
read the alarm register, keep only its AE bit, OR in the BCD-encoded
value, write back. -/
def set_alarm_seconds {E : Type} (s : Sim E) (seconds : Nat) :
    Except (Error E) Unit × Sim E :=
  if seconds > 59 then (.error .InvalidInputData, s)
  else
    match read_register s Register.SECOND_ALARM with
    | (.error e, s') => (.error e, s')
    | (.ok data, s') =>
        write_register s' Register.SECOND_ALARM
          ((data &&& BitFlags.AE) ||| encode_bcd seconds)

/-- Model of `PCF85063::set_alarm_minutes` (src/alarm.rs). -/
def set_alarm_minutes {E : Type} (s : Sim E) (minutes : Nat) :
    Except (Error E) Unit × Sim E :=
  if minutes > 59 then (.error .InvalidInputData, s)
  else
    match read_register s Register.MINUTE_ALARM with
    | (.error e, s') => (.error e, s')
    | (.ok data, s') =>
        write_register s' Register.MINUTE_ALARM
          ((data &&& BitFlags.AE) ||| encode_bcd minutes)

/-- Model of `PCF85063::set_alarm_hours` (src/alarm.rs). -/
def set_alarm_hours {E : Type} (s : Sim E) (hours : Nat) :
    Except (Error E) Unit × Sim E :=
  if hours > 23 then (.error .InvalidInputData, s)
  else
    match read_register s Register.HOUR_ALARM with
    | (.error e, s') => (.error e, s')
    | (.ok data, s') =>
        write_register s' Register.HOUR_ALARM
          ((data &&& BitFlags.AE) ||| encode_bcd hours)

/-- Model of `PCF85063::set_alarm_day` (src/alarm.rs): valid range is
1..=31. -/
def set_alarm_day {E : Type} (s : Sim E) (day : Nat) :
    Except (Error E) Unit × Sim E :=
  if ¬ (1 ≤ day ∧ day ≤ 31) then (.error .InvalidInputData, s)
  else
    match read_register s Register.DAY_ALARM with
    | (.error e, s') => (.error e, s')
    | (.ok data, s') =>
        write_register s' Register.DAY_ALARM
          ((data &&& BitFlags.AE) ||| encode_bcd day)

/-- Model of `PCF85063::set_alarm_weekday` (src/alarm.rs). -/
def set_alarm_weekday {E : Type} (s : Sim E) (weekday : Nat) :
    Except (Error E) Unit × Sim E :=
  if weekday > 6 then (.error .InvalidInputData, s)
  else
    match read_register s Register.WEEKDAY_ALARM with
    | (.error e, s') => (.error e, s')
    | (.ok data, s') =>
        write_register s' Register.WEEKDAY_ALARM
          ((data &&& BitFlags.AE) ||| encode_bcd weekday)

/-- Model of `PCF85063::control_alarm_seconds` (src/alarm.rs): `Off`
sets the AE bit, `On` clears it (inverted hardware convention). -/
def control_alarm_seconds {E : Type} (s : Sim E) (status : Control) :
    Except (Error E) Unit × Sim E :=
  match status with
  | .Off => set_register_bit_flag s Register.SECOND_ALARM BitFlags.AE
  | .On => clear_register_bit_flag s Register.SECOND_ALARM BitFlags.AE

/-- Model of `PCF85063::is_alarm_seconds_enabled` (src/alarm.rs):
negation of the raw AE bit test. -/
def is_alarm_seconds_enabled {E : Type} (s : Sim E) :
    Except (Error E) Bool × Sim E :=
  match is_register_bit_flag_high s Register.SECOND_ALARM BitFlags.AE with
  | (.error e, s') => (.error e, s')
  | (.ok b, s') => (.ok (!b), s')

/-- Model of `PCF85063::control_alarm_minutes` (src/alarm.rs). -/
def control_alarm_minutes {E : Type} (s : Sim E) (status : Control) :
    Except (Error E) Unit × Sim E :=
  match status with
  | .Off => set_register_bit_flag s Register.MINUTE_ALARM BitFlags.AE
  | .On => clear_register_bit_flag s Register.MINUTE_ALARM BitFlags.AE

/-- Model of `PCF85063::is_alarm_minutes_enabled` (src/alarm.rs). -/
def is_alarm_minutes_enabled {E : Type} (s : Sim E) :
    Except (Error E) Bool × Sim E :=
  match is_register_bit_flag_high s Register.MINUTE_ALARM BitFlags.AE with
  | (.error e, s') => (.error e, s')
  | (.ok b, s') => (.ok (!b), s')

/-- Model of `PCF85063::control_alarm_hours` (src/alarm.rs). -/
def control_alarm_hours {E : Type} (s : Sim E) (status : Control) :
    Except (Error E) Unit × Sim E :=
  match status with
  | .Off => set_register_bit_flag s Register.HOUR_ALARM BitFlags.AE
  | .On => clear_register_bit_flag s Register.HOUR_ALARM BitFlags.AE

/-- Model of `PCF85063::is_alarm_hours_enabled` (src/alarm.rs). -/
def is_alarm_hours_enabled {E : Type} (s : Sim E) :
    Except (Error E) Bool × Sim E :=
  match is_register_bit_flag_high s Register.HOUR_ALARM BitFlags.AE with
  | (.error e, s') => (.error e, s')
  | (.ok b, s') => (.ok (!b), s')

/-- Model of `PCF85063::control_alarm_day` (src/alarm.rs). -/
def control_alarm_day {E : Type} (s : Sim E) (status : Control) :
    Except (Error E) Unit × Sim E :=
  match status with
  | .Off => set_register_bit_flag s Register.DAY_ALARM BitFlags.AE
  | .On => clear_register_bit_flag s Register.DAY_ALARM BitFlags.AE

/-- Model of `PCF85063::is_alarm_day_enabled` (src/alarm.rs). -/
def is_alarm_day_enabled {E : Type} (s : Sim E) :
    Except (Error E) Bool × Sim E :=
  match is_register_bit_flag_high s Register.DAY_ALARM BitFlags.AE with
  | (.error e, s') => (.error e, s')
  | (.ok b, s') => (.ok (!b), s')

/-- Model of `PCF85063::control_alarm_weekday` (src/alarm.rs). -/
def control_alarm_weekday {E : Type} (s : Sim E) (status : Control) :
    Except (Error E) Unit × Sim E :=
  match status with
  | .Off => set_register_bit_flag s Register.WEEKDAY_ALARM BitFlags.AE
  | .On => clear_register_bit_flag s Register.WEEKDAY_ALARM BitFlags.AE

/-- Model of `PCF85063::is_alarm_weekday_enabled` (src/alarm.rs). -/
def is_alarm_weekday_enabled {E : Type} (s : Sim E) :
    Except (Error E) Bool × Sim E :=
  match is_register_bit_flag_high s Register.WEEKDAY_ALARM BitFlags.AE with
  | (.error e, s') => (.error e, s')
  | (.ok b, s') => (.ok (!b), s')

/-- Model of `PCF85063::get_alarm_seconds` (src/alarm.rs): one-byte
read of the alarm register, BCD-decoded with no masking. -/
def get_alarm_seconds {E : Type} (s : Sim E) :
    Except (Error E) Nat × Sim E :=
  match i2cWriteRead s Register.SECOND_ALARM 1 with
  | (.error e, s') => (.error e, s')
  | (.ok data, s') => (.ok (decode_bcd (data.getD 0 0)), s')

/-- Model of `PCF85063::get_alarm_minutes` (src/alarm.rs). -/
def get_alarm_minutes {E : Type} (s : Sim E) :
    Except (Error E) Nat × Sim E :=
  match i2cWriteRead s Register.MINUTE_ALARM 1 with
  | (.error e, s') => (.error e, s')
  | (.ok data, s') => (.ok (decode_bcd (data.getD 0 0)), s')

/-- Model of `PCF85063::get_alarm_hours` (src/alarm.rs). -/
def get_alarm_hours {E : Type} (s : Sim E) :
    Except (Error E) Nat × Sim E :=
  match i2cWriteRead s Register.HOUR_ALARM 1 with
  | (.error e, s') => (.error e, s')
  | (.ok data, s') => (.ok (decode_bcd (data.getD 0 0)), s')

/-- Model of `PCF85063::get_alarm_day` (src/alarm.rs). -/
def get_alarm_day {E : Type} (s : Sim E) :
    Except (Error E) Nat × Sim E :=
  match i2cWriteRead s Register.DAY_ALARM 1 with
  | (.error e, s') => (.error e, s')
  | (.ok data, s') => (.ok (decode_bcd (data.getD 0 0)), s')

/-- Model of `PCF85063::get_alarm_weekday` (src/alarm.rs). -/
def get_alarm_weekday {E : Type} (s : Sim E) :
    Except (Error E) Nat × Sim E :=
  match i2cWriteRead s Register.WEEKDAY_ALARM 1 with
  | (.error e, s') => (.error e, s')
  | (.ok data, s') => (.ok (decode_bcd (data.getD 0 0)), s')

/-- Rust `enum OutputFrequency` (src/lib.rs), `repr(u8)` with
discriminants 0..7. -/
inductive OutputFrequency where
  | Hz32768 : OutputFrequency
  | Hz16384 : OutputFrequency
  | Hz8192 : OutputFrequency
  | Hz4096 : OutputFrequency
  | Hz2048 : OutputFrequency
  | Hz1024 : OutputFrequency
  | Hz1 : OutputFrequency
  | Hz0 : OutputFrequency
deriving DecidableEq, Repr

/-- The `repr(u8)` discriminant of each `OutputFrequency` variant
(`OutputFrequency::bits`, src/lib.rs). -/
def OutputFrequency.bits : OutputFrequency → Nat
  | .Hz32768 => 0b000
  | .Hz16384 => 0b001
  | .Hz8192 => 0b010
  | .Hz4096 => 0b011
  | .Hz2048 => 0b100
  | .Hz1024 => 0b101
  | .Hz1 => 0b110
  | .Hz0 => 0b111

/-- Model of the unchecked `core::mem::transmute::<u8,
OutputFrequency>` in src/lib.rs: defined (`some`) exactly on the
declared discriminants 0..7, `none` elsewhere (undefined behaviour in
Rust). -/
def OutputFrequency.ofBits : Nat → Option OutputFrequency
  | 0 => some .Hz32768
  | 1 => some .Hz16384
  | 2 => some .Hz8192
  | 3 => some .Hz4096
  | 4 => some .Hz2048
  | 5 => some .Hz1024
  | 6 => some .Hz1
  | 7 => some .Hz0
  | _ => none

/-- Model of `PCF85063::read_clock_output_frequency` (src/lib.rs):
read CONTROL_2, mask down to the COF field, transmute. -/
def read_clock_output_frequency {E : Type} (s : Sim E) :
    Except (Error E) (Option OutputFrequency) × Sim E :=
  match read_register s Register.CONTROL_2 with
  | (.error e, s') => (.error e, s')
  | (.ok v, s') => (.ok (OutputFrequency.ofBits (v &&& BitFlags.COF)), s')

/-- Model of `PCF85063::write_clock_output_frequency` (src/lib.rs):
read CONTROL_2, XOR the COF mask (the source calls this `cleared`),
OR in the frequency bits, write back. -/
def write_clock_output_frequency {E : Type} (s : Sim E)
    (freq : OutputFrequency) : Except (Error E) Unit × Sim E :=
  match read_register s Register.CONTROL_2 with
  | (.error e, s') => (.error e, s')
  | (.ok value, s') =>
      write_register s' Register.CONTROL_2
        ((value ^^^ BitFlags.COF) ||| freq.bits)

/-- Fault-free simulator with an all-zero register file. -/
def initSim : Sim Unit :=
  { regs := fun _ => 0, failRead := none, failWrite := none, writes := [] }

/-- Fault-free simulator whose register at address `a` holds `b` and
all other registers hold zero. -/
def simWithReg (a b : Nat) : Sim Unit :=
  { regs := fun x => if x = a then b else 0,
    failRead := none, failWrite := none, writes := [] }

/-- Simulator whose write-read transactions all fail with the
transport error `()`. -/
def failReadSim : Sim Unit :=
  { regs := fun _ => 0, failRead := some (), failWrite := none, writes := [] }

instance {ε α : Type} [DecidableEq ε] [DecidableEq α] :
    DecidableEq (Except ε α) := fun a b =>
  match a, b with
  | .ok x, .ok y =>
      if h : x = y then .isTrue (by rw [h])
      else .isFalse (fun hc => h (by cases hc; rfl))
  | .ok _, .error _ => .isFalse (fun hc => Except.noConfusion hc)
  | .error _, .ok _ => .isFalse (fun hc => Except.noConfusion hc)
  | .error x, .error y =>
      if h : x = y then .isTrue (by rw [h])
      else .isFalse (fun hc => h (by cases hc; rfl))

/-- A fault-free single-byte register read returns the register-file
content and leaves the state unchanged. -/
theorem read_register_ok {E : Type} (s : Sim E) (r : Nat)
    (h : s.failRead = none) : read_register s r = (.ok (s.regs r), s) := by
  simp [read_register, i2cWriteRead, h]

/-- A fault-free single-register write updates exactly that register
and appends the two-byte payload to the write log. -/
theorem write_register_ok {E : Type} (s : Sim E) (a d : Nat)
    (h : s.failWrite = none) :
    write_register s a d =
      (.ok (), { s with regs := updateReg s.regs a d,
                        writes := s.writes ++ [[a, d]] }) := by
  simp [write_register, i2cWrite, h, storeBurst, storeFrom]

/-- Bit 7 extraction: AND with 128 yields 128 or 0 according to
`testBit 7`. -/
theorem and128_eq (n : Nat) : n &&& 128 = if n.testBit 7 then 128 else 0 := by
  have h := Nat.and_two_pow n 7
  norm_num at h
  rw [h]
  cases hb : n.testBit 7 <;> simp

/-- Setting bit 7 makes the AND-128 test positive. -/
theorem or128_and128 (n : Nat) : (n ||| 128) &&& 128 = 128 := by
  have h128 : Nat.testBit 128 7 = true := by decide
  rw [and128_eq, Nat.testBit_or, h128]
  simp

/-- Clearing bit 7 (AND with 127) makes the AND-128 test zero. -/
theorem and127_and128 (n : Nat) : (n &&& 127) &&& 128 = 0 := by
  have h : (127 : Nat) &&& 128 = 0 := by decide
  rw [Nat.and_assoc, h, Nat.and_zero]

/-- BCD facts for in-range field values, with and without the AE bit
set in the encoded byte. -/
theorem bcd_field_facts : ∀ v : Nat, v ≤ 59 →
    decode_bcd (128 ||| encode_bcd v) = v ∧
    (128 ||| encode_bcd v).testBit 7 = true ∧
    decode_bcd (encode_bcd v) = v ∧
    (encode_bcd v).testBit 7 = false := by decide

/-- The unchecked discriminant conversion is defined on all values
below 8. -/
theorem ofBits_isSome : ∀ k : Nat, k < 8 →
    (OutputFrequency.ofBits k).isSome = true := by decide

/-- Clearing the AE bit (mask 128) and then testing it reports the
bit low, whether or not the conditional write happened. -/
theorem clear_then_query {E : Type} (s : Sim E) (addr : Nat)
    (hr : s.failRead = none) (hw : s.failWrite = none) :
    is_register_bit_flag_high (clear_register_bit_flag s addr 128).snd
        addr 128
      = (.ok false, (clear_register_bit_flag s addr 128).snd) := by
  by_cases h : s.regs addr &&& 128 = 0
  · simp [clear_register_bit_flag, read_register_ok, hr, h,
      is_register_bit_flag_high]
  · have h127 : (255 : Nat) ^^^ 128 = 127 := by decide
    simp [clear_register_bit_flag, read_register_ok, hr, h, h127,
      write_register_ok, hw, is_register_bit_flag_high, updateReg,
      and127_and128]

/-- Setting the AE bit (mask 128) and then testing it reports the bit
high, whether or not the conditional write happened. -/
theorem set_then_query {E : Type} (s : Sim E) (addr : Nat)
    (hr : s.failRead = none) (hw : s.failWrite = none) :
    is_register_bit_flag_high (set_register_bit_flag s addr 128).snd
        addr 128
      = (.ok true, (set_register_bit_flag s addr 128).snd) := by
  by_cases h : s.regs addr &&& 128 = 0
  · simp [set_register_bit_flag, read_register_ok, hr, h,
      write_register_ok, hw, is_register_bit_flag_high, updateReg,
      or128_and128]
  · simp [set_register_bit_flag, read_register_ok, hr, h,
      is_register_bit_flag_high]

/-- The common write step of the five alarm setters: writing
`(old & AE) | encode_bcd v` back (v at most 59) succeeds, keeps bit 7
of the register equal to the old AE bit, and stores a byte that
BCD-decodes to v. -/
theorem ae_write_spec {E : Type} (s : Sim E) (addr v : Nat)
    (hw : s.failWrite = none) (hv : v ≤ 59) :
    (write_register s addr
      ((s.regs addr &&& BitFlags.AE) ||| encode_bcd v)).fst = .ok () ∧
    ((write_register s addr
      ((s.regs addr &&& BitFlags.AE) ||| encode_bcd v)).snd.regs
        addr).testBit 7
      = (s.regs addr).testBit 7 ∧
    decode_bcd ((write_register s addr
      ((s.regs addr &&& BitFlags.AE) ||| encode_bcd v)).snd.regs addr)
      = v := by
  have hf := bcd_field_facts v hv
  have h128 : Nat.testBit 128 7 = true := by decide
  simp [write_register_ok, hw, updateReg, BitFlags.AE]
  refine ⟨?_, ?_⟩
  · rw [h128, hf.2.2.2]
    simp
  · rw [and128_eq]
    cases h7 : (s.regs addr).testBit 7 <;> simp [hf.1, hf.2.2.1]

/-- C1: `DateTime::is_valid` is NOT the conjunction of the per-field
range checks: on the input with hours = 24 and every other field in
range, `is_valid` returns `true` (its `||` chain already succeeds on
`year ≤ 99`), and `set_datetime` then issues the 8-byte burst write
(payload `[4, 0, 0, encode_bcd 24, 1, 0, 1, 0]`) instead of returning
`InvalidInputData` and leaving the bus untouched. -/
theorem set_datetime_accepts_out_of_range_hours :
    DateTime.is_valid
      { year := 0, month := 1, weekday := 0, day := 1,
        hours := 24, minutes := 0, seconds := 0 } = true ∧
    (set_datetime initSim
      { year := 0, month := 1, weekday := 0, day := 1,
        hours := 24, minutes := 0, seconds := 0 }).fst = .ok () ∧
    (set_datetime initSim
      { year := 0, month := 1, weekday := 0, day := 1,
        hours := 24, minutes := 0, seconds := 0 }).snd.writes =
      [[4, 0, 0, 36, 1, 0, 1, 0]] := by decide

/-- C2 counterexample: the BCD round-trip fails at v = 80, which is in
the claimed range 0-99: `encode_bcd 80 = 0x80`, and `decode_bcd` keeps
only bits 4-6 of the tens nibble, so the round-trip returns 0. -/
theorem bcd_roundtrip_fails_at_80 :
    80 ≤ 99 ∧ decode_bcd (encode_bcd 80) = 0 ∧
    decode_bcd (encode_bcd 80) ≠ 80 := by decide

/-- C2 amended: the BCD codec round-trips exactly on 0-79 (the tens
digit must fit in the three bits that `decode_bcd` keeps). -/
theorem bcd_roundtrip_le_79 : ∀ v : Nat, v ≤ 79 →
    decode_bcd (encode_bcd v) = v := by decide

/-- Witness for C2 at v = 45. -/
theorem bcd_roundtrip_le_79_witness :
    45 ≤ 79 ∧ decode_bcd (encode_bcd 45) = 45 :=
  ⟨by decide, bcd_roundtrip_le_79 45 (by decide)⟩

/-- C3 counterexample: with mask `0b11` against a register holding
`0b01`, the masked bits are not all set, yet `set_register_bit_flag`
issues no write (the source writes only when `data & mask == 0`). -/
theorem set_flag_skips_partially_set_mask :
    (1 : Nat) &&& 3 ≠ 3 ∧
    (set_register_bit_flag (simWithReg 0 1) 0 3).fst = .ok () ∧
    (set_register_bit_flag (simWithReg 0 1) 0 3).snd.writes = [] := by
  decide

/-- C3 amended: `set_register_bit_flag` reads the register; when the
masked bits are all clear it writes back the value with the mask OR'd
in; when any masked bit is already set it performs no bus write and
leaves the state unchanged. -/
theorem set_flag_spec {E : Type} (s : Sim E) (addr mask : Nat)
    (hr : s.failRead = none) (hw : s.failWrite = none) :
    (s.regs addr &&& mask = 0 →
      set_register_bit_flag s addr mask =
        (.ok (), { s with
          regs := updateReg s.regs addr (s.regs addr ||| mask),
          writes := s.writes ++ [[addr, s.regs addr ||| mask]] })) ∧
    (s.regs addr &&& mask ≠ 0 →
      set_register_bit_flag s addr mask = (.ok (), s)) := by
  constructor <;> intro h <;>
    simp [set_register_bit_flag, read_register_ok s addr hr,
      write_register_ok, hw, h]

/-- Witness for C3 at the all-clear register 0 with mask 16 (the
soft-reset flag) and at the already-set register content 16. -/
theorem set_flag_spec_witness :
    ((initSim.regs 0 &&& 16 = 0 →
      set_register_bit_flag initSim 0 16 =
        (.ok (), { initSim with
          regs := updateReg initSim.regs 0 (initSim.regs 0 ||| 16),
          writes := initSim.writes ++ [[0, initSim.regs 0 ||| 16]] })) ∧
     (initSim.regs 0 &&& 16 ≠ 0 →
      set_register_bit_flag initSim 0 16 = (.ok (), initSim))) ∧
    ((simWithReg 0 16).regs 0 &&& 16 ≠ 0 ∧
     set_register_bit_flag (simWithReg 0 16) 0 16 =
       (.ok (), simWithReg 0 16)) :=
  ⟨set_flag_spec initSim 0 16 rfl rfl,
   by decide,
   (set_flag_spec (simWithReg 0 16) 0 16 rfl rfl).2 (by decide)⟩

/-- C4: `write_clock_output_frequency` does not perform a mask-replace
of the COF field: the source XORs the COF mask into the previous value
(flipping the three bits) before OR-ing in the frequency bits.  From a
CONTROL_2 register holding 0 (COF = 0b000), requesting `Hz1024`
(discriminant 0b101) writes a byte whose COF field is 0b111, not
0b101, and reading the frequency back yields `Hz0`. -/
theorem write_cof_xor_flips_instead_of_clearing :
    OutputFrequency.Hz1024.bits = 5 ∧
    (write_clock_output_frequency initSim .Hz1024).fst = .ok () ∧
    ((write_clock_output_frequency initSim .Hz1024).snd.regs
      Register.CONTROL_2) &&& BitFlags.COF = 7 ∧
    (read_clock_output_frequency
      (write_clock_output_frequency initSim .Hz1024).snd).fst =
      .ok (some .Hz0) := by decide

/-- C5: for any fault-free state and any prior alarm-register content,
each of the five per-field alarm setters — `set_alarm_seconds` (input
up to 59), `set_alarm_minutes` (up to 59), `set_alarm_hours` (up to
23), `set_alarm_day` (1 to 31), `set_alarm_weekday` (up to 6) —
succeeds and writes back a byte whose AE bit (bit 7) equals the AE
bit previously stored in that field's register and whose numeric
portion BCD-decodes to the new value: setting an alarm time never
enables or disables that field's alarm. -/
theorem set_alarm_preserves_ae {E : Type} (s : Sim E)
    (secs mins hrs day wd : Nat)
    (hr : s.failRead = none) (hw : s.failWrite = none)
    (hsecs : secs ≤ 59) (hmins : mins ≤ 59) (hhrs : hrs ≤ 23)
    (hday : 1 ≤ day ∧ day ≤ 31) (hwd : wd ≤ 6) :
    ((set_alarm_seconds s secs).fst = .ok () ∧
     ((set_alarm_seconds s secs).snd.regs Register.SECOND_ALARM).testBit 7
       = (s.regs Register.SECOND_ALARM).testBit 7 ∧
     decode_bcd ((set_alarm_seconds s secs).snd.regs Register.SECOND_ALARM)
       = secs) ∧
    ((set_alarm_minutes s mins).fst = .ok () ∧
     ((set_alarm_minutes s mins).snd.regs Register.MINUTE_ALARM).testBit 7
       = (s.regs Register.MINUTE_ALARM).testBit 7 ∧
     decode_bcd ((set_alarm_minutes s mins).snd.regs Register.MINUTE_ALARM)
       = mins) ∧
    ((set_alarm_hours s hrs).fst = .ok () ∧
     ((set_alarm_hours s hrs).snd.regs Register.HOUR_ALARM).testBit 7
       = (s.regs Register.HOUR_ALARM).testBit 7 ∧
     decode_bcd ((set_alarm_hours s hrs).snd.regs Register.HOUR_ALARM)
       = hrs) ∧
    ((set_alarm_day s day).fst = .ok () ∧
     ((set_alarm_day s day).snd.regs Register.DAY_ALARM).testBit 7
       = (s.regs Register.DAY_ALARM).testBit 7 ∧
     decode_bcd ((set_alarm_day s day).snd.regs Register.DAY_ALARM)
       = day) ∧
    ((set_alarm_weekday s wd).fst = .ok () ∧
     ((set_alarm_weekday s wd).snd.regs Register.WEEKDAY_ALARM).testBit 7
       = (s.regs Register.WEEKDAY_ALARM).testBit 7 ∧
     decode_bcd ((set_alarm_weekday s wd).snd.regs Register.WEEKDAY_ALARM)
       = wd) := by
  refine ⟨?_, ?_, ?_, ?_, ?_⟩
  · simp only [set_alarm_seconds]
    rw [if_neg (by omega : ¬ (secs > 59)),
      read_register_ok s Register.SECOND_ALARM hr]
    exact ae_write_spec s Register.SECOND_ALARM secs hw hsecs
  · simp only [set_alarm_minutes]
    rw [if_neg (by omega : ¬ (mins > 59)),
      read_register_ok s Register.MINUTE_ALARM hr]
    exact ae_write_spec s Register.MINUTE_ALARM mins hw hmins
  · simp only [set_alarm_hours]
    rw [if_neg (by omega : ¬ (hrs > 23)),
      read_register_ok s Register.HOUR_ALARM hr]
    exact ae_write_spec s Register.HOUR_ALARM hrs hw (by omega)
  · simp only [set_alarm_day]
    rw [if_neg (not_not_intro hday),
      read_register_ok s Register.DAY_ALARM hr]
    exact ae_write_spec s Register.DAY_ALARM day hw (by omega)
  · simp only [set_alarm_weekday]
    rw [if_neg (by omega : ¬ (wd > 6)),
      read_register_ok s Register.WEEKDAY_ALARM hr]
    exact ae_write_spec s Register.WEEKDAY_ALARM wd hw (by omega)

/-- Witness for C5: seconds register pre-loaded with 0xD9 (AE bit set
on top of old BCD 59), the other alarm registers holding 0; new values
seconds 23, minutes 45, hours 7, day 15, weekday 3. -/
theorem set_alarm_preserves_ae_witness :
    (23 ≤ 59 ∧ 45 ≤ 59 ∧ 7 ≤ 23 ∧ (1 ≤ 15 ∧ 15 ≤ 31) ∧ 3 ≤ 6) ∧
    (((set_alarm_seconds (simWithReg Register.SECOND_ALARM 217) 23).fst
        = .ok () ∧
      ((set_alarm_seconds (simWithReg Register.SECOND_ALARM 217) 23).snd.regs
          Register.SECOND_ALARM).testBit 7
        = ((simWithReg Register.SECOND_ALARM 217).regs
            Register.SECOND_ALARM).testBit 7 ∧
      decode_bcd
          ((set_alarm_seconds (simWithReg Register.SECOND_ALARM 217) 23).snd.regs
            Register.SECOND_ALARM) = 23) ∧
     ((set_alarm_minutes (simWithReg Register.SECOND_ALARM 217) 45).fst
        = .ok () ∧
      ((set_alarm_minutes (simWithReg Register.SECOND_ALARM 217) 45).snd.regs
          Register.MINUTE_ALARM).testBit 7
        = ((simWithReg Register.SECOND_ALARM 217).regs
            Register.MINUTE_ALARM).testBit 7 ∧
      decode_bcd
          ((set_alarm_minutes (simWithReg Register.SECOND_ALARM 217) 45).snd.regs
            Register.MINUTE_ALARM) = 45) ∧
     ((set_alarm_hours (simWithReg Register.SECOND_ALARM 217) 7).fst
        = .ok () ∧
      ((set_alarm_hours (simWithReg Register.SECOND_ALARM 217) 7).snd.regs
          Register.HOUR_ALARM).testBit 7
        = ((simWithReg Register.SECOND_ALARM 217).regs
            Register.HOUR_ALARM).testBit 7 ∧
      decode_bcd
          ((set_alarm_hours (simWithReg Register.SECOND_ALARM 217) 7).snd.regs
            Register.HOUR_ALARM) = 7) ∧
     ((set_alarm_day (simWithReg Register.SECOND_ALARM 217) 15).fst
        = .ok () ∧
      ((set_alarm_day (simWithReg Register.SECOND_ALARM 217) 15).snd.regs
          Register.DAY_ALARM).testBit 7
        = ((simWithReg Register.SECOND_ALARM 217).regs
            Register.DAY_ALARM).testBit 7 ∧
      decode_bcd
          ((set_alarm_day (simWithReg Register.SECOND_ALARM 217) 15).snd.regs
            Register.DAY_ALARM) = 15) ∧
     ((set_alarm_weekday (simWithReg Register.SECOND_ALARM 217) 3).fst
        = .ok () ∧
      ((set_alarm_weekday (simWithReg Register.SECOND_ALARM 217) 3).snd.regs
          Register.WEEKDAY_ALARM).testBit 7
        = ((simWithReg Register.SECOND_ALARM 217).regs
            Register.WEEKDAY_ALARM).testBit 7 ∧
      decode_bcd
          ((set_alarm_weekday (simWithReg Register.SECOND_ALARM 217) 3).snd.regs
            Register.WEEKDAY_ALARM) = 3)) :=
  ⟨by decide,
   set_alarm_preserves_ae (simWithReg Register.SECOND_ALARM 217)
     23 45 7 15 3 rfl rfl (by decide) (by decide) (by decide)
     (by decide) (by decide)⟩

/-- C6: for any fault-free state and each of the five alarm-capable
fields, passing `Control.On` to the field's control operation and then
querying reports the alarm enabled, and passing `Control.Off` and then
querying reports it disabled (`On` clears the AE bit, `Off` sets it,
and the query negates the raw bit test). -/
theorem alarm_control_query {E : Type} (s : Sim E)
    (hr : s.failRead = none) (hw : s.failWrite = none) :
    ((is_alarm_seconds_enabled (control_alarm_seconds s .On).snd).fst
        = .ok true ∧
     (is_alarm_seconds_enabled (control_alarm_seconds s .Off).snd).fst
        = .ok false) ∧
    ((is_alarm_minutes_enabled (control_alarm_minutes s .On).snd).fst
        = .ok true ∧
     (is_alarm_minutes_enabled (control_alarm_minutes s .Off).snd).fst
        = .ok false) ∧
    ((is_alarm_hours_enabled (control_alarm_hours s .On).snd).fst
        = .ok true ∧
     (is_alarm_hours_enabled (control_alarm_hours s .Off).snd).fst
        = .ok false) ∧
    ((is_alarm_day_enabled (control_alarm_day s .On).snd).fst
        = .ok true ∧
     (is_alarm_day_enabled (control_alarm_day s .Off).snd).fst
        = .ok false) ∧
    ((is_alarm_weekday_enabled (control_alarm_weekday s .On).snd).fst
        = .ok true ∧
     (is_alarm_weekday_enabled (control_alarm_weekday s .Off).snd).fst
        = .ok false) := by
  simp [is_alarm_seconds_enabled, control_alarm_seconds,
    is_alarm_minutes_enabled, control_alarm_minutes,
    is_alarm_hours_enabled, control_alarm_hours,
    is_alarm_day_enabled, control_alarm_day,
    is_alarm_weekday_enabled, control_alarm_weekday,
    BitFlags.AE, clear_then_query, set_then_query, hr, hw]

/-- Witness for C6 at the all-zero fault-free simulator. -/
theorem alarm_control_query_witness :
    ((is_alarm_seconds_enabled (control_alarm_seconds initSim .On).snd).fst
        = .ok true ∧
     (is_alarm_seconds_enabled (control_alarm_seconds initSim .Off).snd).fst
        = .ok false) ∧
    ((is_alarm_minutes_enabled (control_alarm_minutes initSim .On).snd).fst
        = .ok true ∧
     (is_alarm_minutes_enabled (control_alarm_minutes initSim .Off).snd).fst
        = .ok false) ∧
    ((is_alarm_hours_enabled (control_alarm_hours initSim .On).snd).fst
        = .ok true ∧
     (is_alarm_hours_enabled (control_alarm_hours initSim .Off).snd).fst
        = .ok false) ∧
    ((is_alarm_day_enabled (control_alarm_day initSim .On).snd).fst
        = .ok true ∧
     (is_alarm_day_enabled (control_alarm_day initSim .Off).snd).fst
        = .ok false) ∧
    ((is_alarm_weekday_enabled (control_alarm_weekday initSim .On).snd).fst
        = .ok true ∧
     (is_alarm_weekday_enabled (control_alarm_weekday initSim .Off).snd).fst
        = .ok false) :=
  alarm_control_query initSim rfl rfl

/-- C7: when the register read inside `set_register_bit_flag` or
`clear_register_bit_flag` fails with a transport error, the operation
returns that bus error and the simulator state (register file and
write log) is returned unchanged: no write transaction is issued. -/
theorem bit_flag_ops_propagate_read_error {E : Type} (s : Sim E)
    (addr mask : Nat) (e : E) (h : s.failRead = some e) :
    set_register_bit_flag s addr mask = (.error (.I2C e), s) ∧
    clear_register_bit_flag s addr mask = (.error (.I2C e), s) := by
  constructor <;>
    simp [set_register_bit_flag, clear_register_bit_flag, read_register,
      i2cWriteRead, h]

/-- Witness for C7 on the simulator whose reads fail with the unit
transport error. -/
theorem bit_flag_ops_propagate_read_error_witness :
    failReadSim.failRead = some () ∧
    set_register_bit_flag failReadSim 0 16 = (.error (.I2C ()), failReadSim) ∧
    clear_register_bit_flag failReadSim 0 16 =
      (.error (.I2C ()), failReadSim) :=
  ⟨rfl,
   (bit_flag_ops_propagate_read_error failReadSim 0 16 () rfl).1,
   (bit_flag_ops_propagate_read_error failReadSim 0 16 () rfl).2⟩

/-- C8: writing the valid datetime (seconds 45, minutes 30, hours 12,
day 15, weekday 3, month 6, year 23) into the register-file model and
reading it back returns the identical structured value. -/
theorem datetime_roundtrip :
    (set_datetime initSim
      { year := 23, month := 6, weekday := 3, day := 15,
        hours := 12, minutes := 30, seconds := 45 }).fst = .ok () ∧
    (get_datetime (set_datetime initSim
      { year := 23, month := 6, weekday := 3, day := 15,
        hours := 12, minutes := 30, seconds := 45 }).snd).fst
      = .ok { year := 23, month := 6, weekday := 3, day := 15,
              hours := 12, minutes := 30, seconds := 45 } := by decide

set_option maxRecDepth 8192 in
/-- C9: for every byte, `decode_bcd` is insensitive to bit 7, and each
of the five alarm getters (which decode the raw register byte without
masking the AE bit first) returns the stored numeric setting whatever
the state of the AE bit: on a register holding `b` it returns
`decode_bcd (b &&& 0x7f)`. -/
theorem decode_bcd_ignores_bit7 : ∀ b : Nat, b < 256 →
    decode_bcd b = decode_bcd (b &&& 0x7f) ∧
    (get_alarm_seconds (simWithReg Register.SECOND_ALARM b)).fst
      = .ok (decode_bcd (b &&& 0x7f)) ∧
    (get_alarm_minutes (simWithReg Register.MINUTE_ALARM b)).fst
      = .ok (decode_bcd (b &&& 0x7f)) ∧
    (get_alarm_hours (simWithReg Register.HOUR_ALARM b)).fst
      = .ok (decode_bcd (b &&& 0x7f)) ∧
    (get_alarm_day (simWithReg Register.DAY_ALARM b)).fst
      = .ok (decode_bcd (b &&& 0x7f)) ∧
    (get_alarm_weekday (simWithReg Register.WEEKDAY_ALARM b)).fst
      = .ok (decode_bcd (b &&& 0x7f)) := by decide

/-- Witness for C9 at b = 0xD9 (AE bit set over BCD 59). -/
theorem decode_bcd_ignores_bit7_witness :
    217 < 256 ∧
    (decode_bcd 217 = decode_bcd (217 &&& 0x7f) ∧
     (get_alarm_seconds (simWithReg Register.SECOND_ALARM 217)).fst
       = .ok (decode_bcd (217 &&& 0x7f)) ∧
     (get_alarm_minutes (simWithReg Register.MINUTE_ALARM 217)).fst
       = .ok (decode_bcd (217 &&& 0x7f)) ∧
     (get_alarm_hours (simWithReg Register.HOUR_ALARM 217)).fst
       = .ok (decode_bcd (217 &&& 0x7f)) ∧
     (get_alarm_day (simWithReg Register.DAY_ALARM 217)).fst
       = .ok (decode_bcd (217 &&& 0x7f)) ∧
     (get_alarm_weekday (simWithReg Register.WEEKDAY_ALARM 217)).fst
       = .ok (decode_bcd (217 &&& 0x7f))) :=
  ⟨by decide, decode_bcd_ignores_bit7 217 (by decide)⟩

/-- C10: on any fault-free state, `read_clock_output_frequency`
returns the unchecked conversion applied to the COF field of
CONTROL_2, and since the value is masked down to three bits the
conversion is always defined (`some`): the unsafe transmute is
unreachable on out-of-range input. -/
theorem read_cof_total {E : Type} (s : Sim E) (h : s.failRead = none) :
    (read_clock_output_frequency s).fst
      = .ok (OutputFrequency.ofBits
          (s.regs Register.CONTROL_2 &&& BitFlags.COF)) ∧
    (OutputFrequency.ofBits
      (s.regs Register.CONTROL_2 &&& BitFlags.COF)).isSome = true := by
  constructor
  · simp [read_clock_output_frequency, read_register_ok, h]
  · refine ofBits_isSome _ ?_
    have hb : s.regs Register.CONTROL_2 &&& BitFlags.COF ≤ 7 := by
      simpa [BitFlags.COF] using
        Nat.and_le_right (n := s.regs Register.CONTROL_2) (m := 7)
    omega

/-- Witness for C10 at the all-zero fault-free simulator. -/
theorem read_cof_total_witness :
    (read_clock_output_frequency initSim).fst
      = .ok (OutputFrequency.ofBits
          (initSim.regs Register.CONTROL_2 &&& BitFlags.COF)) ∧
    (OutputFrequency.ofBits
      (initSim.regs Register.CONTROL_2 &&& BitFlags.COF)).isSome = true :=
  read_cof_total initSim rfl

end PCF85063A
